import Mathlib

/-!
Verification of the Scoring & Persona Classification Engine of the quiz-funnel
application (src/App.tsx and its near-duplicate variants src/unnamed/part_000,
part_001, part_002).

The embedding mirrors the source:
* `localSummary` (src/App.tsx lines 96-117): per-category scores via
  `reduce` over the questions of the category, with `val === -1 ? 0 : (val || 0)`
  as the per-question contribution, level thresholds 12 / 7, and
  `totalScore` as a `reduce` over the per-category results.
* the inline fallback persona table of `runDiagnosis`
  (src/App.tsx lines 138-142): `>= 48` charmer, else `>= 38` statue,
  else `<= 20` pioneer, else neighbor.
* persona-id normalization (src/App.tsx lines 363-368 / part_001 lines 182-185):
  `toLowerCase().trim()`, lookup in the persona list, default on a miss.
* the part_002 variant's thresholds 9 / 5 and its single-cut fallback
  `totalScore > 36 ? charmer : neighbor` (part_002 lines 106-109, 145).

Presentation-only fields of the source records (color, description, suggestion —
strings taken from the CATEGORY_INFO constant, which is not part of the engine)
are omitted; the claims are about scores, levels and persona ids.
-/

namespace SelfStyle

/-- The four category tags of src/App.tsx line 98:
面容氣色 (skin), 髮型駕馭 (hair), 穿搭策略 (style), 社群形象 (social). -/
inductive Category where
  | skin
  | hair
  | style
  | social
deriving DecidableEq, Repr

/-- Traffic-light level: 紅燈 (red), 黃燈 (yellow), 綠燈 (green). -/
inductive Level where
  | red
  | yellow
  | green
deriving DecidableEq, Repr

/-- The UI step machine of src/App.tsx line 22. -/
inductive Step where
  | hero
  | quiz
  | diagnosing
  | result
deriving DecidableEq, Repr

/-- A question of the bank: `{ id, category }` (src/unnamed/part_003, `Question`);
the display text is presentation-only and omitted. -/
structure Question where
  id : Nat
  category : Category
deriving DecidableEq, Repr

/-- The answers map `Record<number, number>` of src/App.tsx line 25: a partial
map from question id to the chosen option value (`none` = unanswered). -/
abbrev Answers := Nat → Option Int

/-- The per-question contribution of src/App.tsx lines 103-104:
`const val = answers[q.id]; acc + (val === -1 ? 0 : (val || 0))` —
a missing answer (undefined) contributes 0, the sentinel -1 contributes 0,
any other value contributes itself (`0 || 0` is 0, which is the value). -/
def answerContribution (a : Answers) (qid : Nat) : Int :=
  match a qid with
  | none => 0
  | some v => if v = -1 then 0 else v

/-- `QUESTIONS.filter(q => q.category === cat)` (src/App.tsx line 100). -/
def catQuestions (bank : List Question) (c : Category) : List Question :=
  bank.filter (fun q => decide (q.category = c))

/-- The category score of src/App.tsx lines 102-105: a `reduce` (left fold)
of the per-question contributions over the category's questions, from 0. -/
def categoryScore (bank : List Question) (a : Answers) (c : Category) : Int :=
  (catQuestions bank c).foldl (fun acc q => acc + answerContribution a q.id) 0

/-- The level thresholds of src/App.tsx lines 108-111 (category max 15):
`score >= 12` green, else `score >= 7` yellow, else red. -/
def levelOf (score : Int) : Level :=
  if score ≥ 12 then .green
  else if score ≥ 7 then .yellow
  else .red

/-- One entry of the summary list (src/App.tsx line 112), restricted to the
engine fields: category, score, level. -/
structure CategoryResult where
  category : Category
  score : Int
  level : Level
deriving DecidableEq, Repr

/-- The record built for one category at src/App.tsx lines 100-112. -/
def categoryResult (bank : List Question) (a : Answers) (c : Category) : CategoryResult :=
  { category := c
    score := categoryScore bank a c
    level := levelOf (categoryScore bank a c) }

/-- The fixed display order of src/App.tsx line 98. -/
def categoriesOrder : List Category := [.skin, .hair, .style, .social]

/-- The value returned by `localSummary` (src/App.tsx lines 99-116):
the per-category list and the total score. -/
structure Summary where
  summary : List CategoryResult
  totalScore : Int
deriving DecidableEq, Repr

/-- The body of the memo at src/App.tsx lines 98-116: map the fixed category
order to per-category results, then `totalScore = summary.reduce((acc, curr)
=> acc + curr.score, 0)`. -/
def computeSummary (bank : List Question) (a : Answers) : Summary :=
  let s := categoriesOrder.map (fun c => categoryResult bank a c)
  { summary := s
    totalScore := s.foldl (fun acc curr => acc + curr.score) 0 }

/-- `localSummary` with its guard (src/App.tsx line 97):
`if (step !== 'result' && step !== 'diagnosing') return null`. -/
def localSummary (step : Step) (bank : List Question) (a : Answers) : Option Summary :=
  if step ≠ .result ∧ step ≠ .diagnosing then none
  else some (computeSummary bank a)

/-- The inline fallback persona table of `runDiagnosis`
(src/App.tsx lines 138-142): `let fallbackId = 'neighbor'` then
`>= 48` charmer, `else >= 38` statue, `else <= 20` pioneer. -/
def computeFallbackPersona (totalScore : Int) : String :=
  if totalScore ≥ 48 then "charmer"
  else if totalScore ≥ 38 then "statue"
  else if totalScore ≤ 20 then "pioneer"
  else "neighbor"

/-- The closed persona id set, as listed in the prompt literal of
src/App.tsx line 236: `[charmer, statue, hustler, neighbor, sage, pioneer]`. -/
def personaIds : List String :=
  ["charmer", "statue", "hustler", "neighbor", "sage", "pioneer"]

/-- Persona-id normalization (src/App.tsx lines 363-368 and
src/unnamed/part_001 lines 182-185): lower-case, trim, look the result up
among the known ids, fall back to the designated default on a miss. -/
def normalizePersonaId (rawId : String) (knownIds : List String) (defaultId : String) :
    String :=
  let normalizedId := rawId.toLower.trim
  if normalizedId ∈ knownIds then normalizedId else defaultId

/-- The level thresholds of the part_002 variant (src/unnamed/part_002
lines 106-109, category max 12): `score >= 9` green, else `score >= 5` yellow. -/
def levelOfV2 (score : Int) : Level :=
  if score ≥ 9 then .green
  else if score ≥ 5 then .yellow
  else .red

/-- The fallback persona of the part_002 variant (src/unnamed/part_002
line 145): `localSummary.totalScore > 36 ? 'charmer' : 'neighbor'`. -/
def fallbackPersonaV2 (totalScore : Int) : String :=
  if totalScore > 36 then "charmer" else "neighbor"

/-- Modelled from the spec: the `QUESTIONS` constant lives in `constants.tsx`,
which is not under src/. Per the spec (§3: equal question count per category;
§8: 4 categories × 5 questions) and the source itself (src/App.tsx line 107:
"滿分 15 分 (5題 * 3分)"; the intro screens at indices 0, 5, 10, 15 of
line 441), the bank is 4 categories × 5 questions in the fixed display order;
ids are taken as 1-20. -/
def QUESTIONS : List Question :=
  [⟨1, .skin⟩, ⟨2, .skin⟩, ⟨3, .skin⟩, ⟨4, .skin⟩, ⟨5, .skin⟩,
   ⟨6, .hair⟩, ⟨7, .hair⟩, ⟨8, .hair⟩, ⟨9, .hair⟩, ⟨10, .hair⟩,
   ⟨11, .style⟩, ⟨12, .style⟩, ⟨13, .style⟩, ⟨14, .style⟩, ⟨15, .style⟩,
   ⟨16, .social⟩, ⟨17, .social⟩, ⟨18, .social⟩, ⟨19, .social⟩, ⟨20, .social⟩]

/-- Modelled from the spec: the value scale of the `OPTIONS` constant of
`constants.tsx`, which is not under src/. Per the spec (§3, §8): five
Likert-style points `{-1 (unsure sentinel), 0, 1, 2, 3}`. -/
def OPTIONS : List Int := [-1, 0, 1, 2, 3]

/-- A question counts toward the category sum exactly when it is answered
and the answer is not the -1 sentinel (src/App.tsx line 104). -/
def isScored (a : Answers) (qid : Nat) : Bool :=
  match a qid with
  | none => false
  | some v => !(v == -1)

/-- The chosen option value of an answered question (0 when unanswered). -/
def chosenValue (a : Answers) (qid : Nat) : Int :=
  (a qid).getD 0

/-! ### Helper lemmas -/

/-- A left fold of integer additions is the start value plus the sum of the map. -/
lemma foldl_add_eq_add_sum {α : Type} (f : α → Int) (l : List α) (x : Int) :
    l.foldl (fun acc q => acc + f q) x = x + (l.map f).sum := by
  induction l generalizing x with
  | nil => simp
  | cons q t ih =>
    simp only [List.foldl_cons, List.map_cons, List.sum_cons, ih]
    ring

/-- The category score as a sum over the mapped contributions. -/
lemma categoryScore_eq_sum (bank : List Question) (a : Answers) (c : Category) :
    categoryScore bank a c =
      ((catQuestions bank c).map (fun q => answerContribution a q.id)).sum := by
  simpa using foldl_add_eq_add_sum (fun q => answerContribution a q.id) (catQuestions bank c) 0

/-! ### Claims -/

/-- C1: for every question bank and answers map — in particular partially-filled
and empty ones — the `totalScore` of the computed summary equals the sum of the
per-category scores of that same summary (src/App.tsx lines 96-117). -/
theorem totalScore_eq_sum_perCategory (bank : List Question) (a : Answers) :
    (computeSummary bank a).totalScore =
      ((computeSummary bank a).summary.map (fun r => r.score)).sum := by
  simp only [computeSummary]
  rw [foldl_add_eq_add_sum]
  ring

/-- Pointwise reading of the contribution: the chosen value when the question
is answered and not the sentinel, else 0. -/
lemma answerContribution_eq (a : Answers) (qid : Nat) :
    answerContribution a qid = if isScored a qid then chosenValue a qid else 0 := by
  cases hq : a qid with
  | none => simp [answerContribution, isScored, hq]
  | some v =>
    by_cases hv : v = -1 <;>
      simp [answerContribution, isScored, chosenValue, hq, hv]

/-- Dropping the zero contributions: the contribution sum over any question
list equals the sum of the chosen values over its scored (answered,
non-sentinel) questions. -/
lemma sum_contrib_eq_sum_scored (a : Answers) (l : List Question) :
    (l.map (fun q => answerContribution a q.id)).sum =
      ((l.filter (fun q => isScored a q.id)).map (fun q => chosenValue a q.id)).sum := by
  induction l with
  | nil => simp
  | cons q t ih =>
    simp only [List.map_cons, List.sum_cons, List.filter_cons, answerContribution_eq a q.id]
    by_cases h : isScored a q.id = true <;> simp [h, ih]

/-- C2: a question answered with the sentinel -1 and an unanswered question
each contribute exactly 0 (never a negative amount) to the category sum, and
consequently each category score equals the sum of the chosen option values
over that category's answered non-sentinel questions
(src/App.tsx lines 102-105). -/
theorem sentinel_and_missing_score_zero (bank : List Question) (a : Answers) (c : Category) :
    (∀ qid, a qid = some (-1) → answerContribution a qid = 0) ∧
    (∀ qid, a qid = none → answerContribution a qid = 0) ∧
    categoryScore bank a c =
      (((catQuestions bank c).filter (fun q => isScored a q.id)).map
        (fun q => chosenValue a q.id)).sum := by
  refine ⟨?_, ?_, ?_⟩
  · intro qid h
    simp [answerContribution, h]
  · intro qid h
    simp [answerContribution, h]
  · rw [categoryScore_eq_sum]
    exact sum_contrib_eq_sum_scored a (catQuestions bank c)

/-- Witness for C2: on the map answering only question 1 with the sentinel,
both question 1 (sentinel) and question 2 (unanswered) contribute 0. -/
theorem sentinel_and_missing_score_zero_witness :
    answerContribution (fun qid => if qid = 1 then some (-1) else none) 1 = 0 ∧
    answerContribution (fun qid => if qid = 1 then some (-1) else none) 2 = 0 :=
  ⟨(sentinel_and_missing_score_zero QUESTIONS
      (fun qid => if qid = 1 then some (-1) else none) .skin).1 1 (by decide),
   (sentinel_and_missing_score_zero QUESTIONS
      (fun qid => if qid = 1 then some (-1) else none) .skin).2.1 2 (by decide)⟩

/-- C3: the fallback persona is a priority-ordered decision table over
`totalScore` alone, first match wins: the top band (≥ 48) is "charmer"
(the all-rounder), else the upper-middle band [38, 48) is "statue"
(polished-but-incomplete), else scores at or below 20 are "pioneer"
(needs-rebuild), else "neighbor" (the neutral default)
(src/App.tsx lines 138-142). -/
theorem fallback_persona_decision_table :
    (∀ s : Int, 48 ≤ s → computeFallbackPersona s = "charmer") ∧
    (∀ s : Int, 38 ≤ s → s < 48 → computeFallbackPersona s = "statue") ∧
    (∀ s : Int, s ≤ 20 → computeFallbackPersona s = "pioneer") ∧
    (∀ s : Int, 20 < s → s < 38 → computeFallbackPersona s = "neighbor") := by
  refine ⟨?_, ?_, ?_, ?_⟩ <;>
    · intro s
      intros
      simp only [computeFallbackPersona]
      split_ifs <;> first | rfl | (exfalso; omega)

/-- Witness for C3: totalScore 60 yields the all-rounder tag and totalScore 0
yields the needs-rebuild tag. -/
theorem fallback_persona_decision_table_witness :
    computeFallbackPersona 60 = "charmer" ∧ computeFallbackPersona 0 = "pioneer" :=
  ⟨fallback_persona_decision_table.1 60 (by decide),
   fallback_persona_decision_table.2.2.1 0 (by decide)⟩

/-- C6: the fallback-persona computation is total over the score range —
for every integer totalScore in [0, 60] it returns a member of the fixed
closed persona set, with no score uncovered (src/App.tsx lines 138-142);
as a pure if/else chain it is side-effect-free by construction. -/
theorem fallback_persona_total (s : Int) (_h0 : 0 ≤ s) (_h1 : s ≤ 60) :
    computeFallbackPersona s ∈ personaIds := by
  simp only [computeFallbackPersona, personaIds]
  split_ifs <;> simp

/-- Witness for C6: the mid-band score 30 is covered. -/
theorem fallback_persona_total_witness : computeFallbackPersona 30 ∈ personaIds :=
  fallback_persona_total 30 (by decide) (by decide)

/-- C9: the summary computation is deterministic and idempotent — two
invocations on the same step, question bank and answers map return equal
results; the embedding is a pure function of exactly these inputs, reading
no global or hidden mutable state (src/App.tsx lines 96-117). -/
theorem localSummary_deterministic (s1 s2 : Step) (b1 b2 : List Question)
    (a1 a2 : Answers) (hs : s1 = s2) (hb : b1 = b2) (ha : a1 = a2) :
    localSummary s1 b1 a1 = localSummary s2 b2 a2 := by
  subst hs
  subst hb
  subst ha
  rfl

/-- Witness for C9: two invocations on the all-3 answers map agree. -/
theorem localSummary_deterministic_witness :
    localSummary .result QUESTIONS (fun _ => some 3) =
      localSummary .result QUESTIONS (fun _ => some 3) :=
  localSummary_deterministic .result .result QUESTIONS QUESTIONS
    (fun _ => some 3) (fun _ => some 3) rfl rfl rfl

/-- C10: the repository's near-duplicate variants are not behaviorally
equivalent: the src/App.tsx variant turns Green at 12 (of 15) while the
part_002 variant turns Green at 9 (of 12) — they disagree at score 10 —
and the fallback tables (four bands over totalScore vs a single cut at
totalScore > 36) disagree at totalScore 40 and 10. -/
theorem variants_not_equivalent :
    levelOf 12 = Level.green ∧ levelOf 11 ≠ Level.green ∧
    levelOfV2 9 = Level.green ∧ levelOfV2 8 ≠ Level.green ∧
    levelOf 10 ≠ levelOfV2 10 ∧
    computeFallbackPersona 40 = "statue" ∧ fallbackPersonaV2 40 = "charmer" ∧
    computeFallbackPersona 10 = "pioneer" ∧ fallbackPersonaV2 10 = "neighbor" := by
  refine ⟨by decide, by decide, by decide, by decide, by decide, rfl, rfl, rfl, rfl⟩

/-- C4: persona-id normalization lower-cases and trims the raw id, returns it
when it is among the known persona ids, otherwise returns the designated
default; as a total function it never throws for any string input, and
whenever the default is itself a known id (which holds for the repository's
defaults, `PERSONAS[5]` and `'neighbor'`) the result is always a member of the
known persona set (src/App.tsx lines 363-368, src/unnamed/part_001
lines 182-185). -/
theorem normalizePersonaId_safe (rawId defaultId : String) (hd : defaultId ∈ personaIds) :
    (rawId.toLower.trim ∈ personaIds →
      normalizePersonaId rawId personaIds defaultId = rawId.toLower.trim) ∧
    (rawId.toLower.trim ∉ personaIds →
      normalizePersonaId rawId personaIds defaultId = defaultId) ∧
    normalizePersonaId rawId personaIds defaultId ∈ personaIds := by
  refine ⟨?_, ?_, ?_⟩ <;> simp only [normalizePersonaId]
  · intro h
    rw [if_pos h]
  · intro h
    rw [if_neg h]
  · split_ifs with h
    · exact h
    · exact hd

/-- Witness for C4: the whitespace-padded mixed-case input of the spec,
normalized against the persona set with default "neighbor", lands in the set. -/
theorem normalizePersonaId_safe_witness :
    normalizePersonaId "  Charmer \t" personaIds "neighbor" ∈ personaIds :=
  (normalizePersonaId_safe "  Charmer \t" "neighbor" (by decide)).2.2

/-- Counterexample for C5: the code clamps only the sentinel and missing
answers, not out-of-range values — answering question 1 with the out-of-scale
value -2 drives the skin category score to -2, below the claimed lower
bound 0 (src/App.tsx lines 102-105). -/
theorem out_of_range_not_clamped :
    categoryScore QUESTIONS (fun qid => if qid = 1 then some (-2) else none)
        Category.skin = -2 ∧
    ¬(0 ≤ categoryScore QUESTIONS (fun qid => if qid = 1 then some (-2) else none)
        Category.skin) := by
  refine ⟨by decide, by decide⟩

/-- Contribution bounds when every answered value is on the option scale. -/
lemma answerContribution_bounds (a : Answers)
    (h : ∀ qid v, a qid = some v → v ∈ OPTIONS) (qid : Nat) :
    0 ≤ answerContribution a qid ∧ answerContribution a qid ≤ 3 := by
  cases hq : a qid with
  | none => simp [answerContribution, hq]
  | some v =>
    have hv := h qid v hq
    simp only [OPTIONS, List.mem_cons, List.not_mem_nil, or_false] at hv
    simp only [answerContribution, hq]
    rcases hv with h1 | h1 | h1 | h1 | h1 <;> subst h1 <;> decide

/-- Sum bounds for a list of per-question contributions in [0, 3]. -/
lemma sum_bounds_of_mem (l : List Question) (f : Question → Int)
    (h : ∀ q ∈ l, 0 ≤ f q ∧ f q ≤ 3) :
    0 ≤ (l.map f).sum ∧ (l.map f).sum ≤ 3 * (l.length : Int) := by
  induction l with
  | nil => simp
  | cons q t ih =>
    have hq := h q (List.mem_cons_self q t)
    have ht := ih (fun x hx => h x (List.mem_cons_of_mem q hx))
    simp only [List.map_cons, List.sum_cons, List.length_cons]
    push_cast
    constructor
    · linarith [hq.1, ht.1]
    · linarith [hq.2, ht.2]

/-- C5 (amended): the summary computation is total — every answers map yields
a result — and the sentinel and missing answers are clamped to 0; but
out-of-range values pass through unclamped, so the claimed bounds hold under
the proviso that every answered value lies on the fixed option scale: then
each category score lies between 0 and the category's maximum attainable
score (number of questions × the maximum option value 3). -/
theorem categoryScore_bounds_inScale (bank : List Question) (a : Answers)
    (h : ∀ qid v, a qid = some v → v ∈ OPTIONS) (c : Category) :
    0 ≤ categoryScore bank a c ∧
    categoryScore bank a c ≤ 3 * ((catQuestions bank c).length : Int) := by
  rw [categoryScore_eq_sum]
  exact sum_bounds_of_mem _ _ (fun q _ => answerContribution_bounds a h q.id)

/-- Witness for C5 (amended): the all-3 answers map is on the option scale
and stays within the bounds. -/
theorem categoryScore_bounds_inScale_witness :
    0 ≤ categoryScore QUESTIONS (fun _ => some 3) Category.skin ∧
    categoryScore QUESTIONS (fun _ => some 3) Category.skin ≤
      3 * ((catQuestions QUESTIONS Category.skin).length : Int) :=
  categoryScore_bounds_inScale QUESTIONS (fun _ => some 3)
    (fun _ v hv => by
      simp only [Option.some.injEq] at hv
      subst hv
      decide)
    Category.skin

/-- When every question of the list is answered with 3, the contribution sum
is three times the list length. -/
lemma sum_contrib_all_three (a : Answers) (l : List Question)
    (h : ∀ q ∈ l, a q.id = some 3) :
    (l.map (fun q => answerContribution a q.id)).sum = 3 * (l.length : Int) := by
  induction l with
  | nil => simp
  | cons q t ih =>
    have hq : answerContribution a q.id = 3 := by
      simp [answerContribution, h q (List.mem_cons_self q t)]
    simp only [List.map_cons, List.sum_cons, List.length_cons, hq,
      ih (fun x hx => h x (List.mem_cons_of_mem q hx))]
    push_cast
    ring

/-- C7: if every question of a category is answered with the maximum option
value 3, that category's score is questionsInCategory × maxOptionValue
(5 × 3 = 15) and its level is Green (src/App.tsx lines 100-112). -/
theorem max_ceiling_green (a : Answers) (c : Category)
    (h : ∀ q ∈ QUESTIONS, q.category = c → a q.id = some 3) :
    categoryScore QUESTIONS a c = 5 * 3 ∧
    levelOf (categoryScore QUESTIONS a c) = Level.green := by
  have hall : ∀ q ∈ catQuestions QUESTIONS c, a q.id = some 3 := by
    intro q hq
    rw [catQuestions, List.mem_filter] at hq
    exact h q hq.1 (of_decide_eq_true hq.2)
  have hlen : ((catQuestions QUESTIONS c).length : Int) = 5 := by
    cases c <;> rfl
  have hscore : categoryScore QUESTIONS a c = 15 := by
    rw [categoryScore_eq_sum, sum_contrib_all_three a _ hall, hlen]
    norm_num
  rw [hscore]
  exact ⟨by norm_num, by decide⟩

/-- Witness for C7: the all-3 answers map tops out the skin category. -/
theorem max_ceiling_green_witness :
    categoryScore QUESTIONS (fun _ => some 3) Category.skin = 5 * 3 ∧
    levelOf (categoryScore QUESTIONS (fun _ => some 3) Category.skin) = Level.green :=
  max_ceiling_green (fun _ => some 3) Category.skin (fun _ _ _ => rfl)

/-- C8: thresholds apply per-category, never by averaging — two answer maps
that agree on every question of a category produce the same score and the same
level for that category, whatever they assign elsewhere
(src/App.tsx lines 99-112). -/
theorem category_level_independent (bank : List Question) (a1 a2 : Answers)
    (c : Category) (h : ∀ q ∈ bank, q.category = c → a1 q.id = a2 q.id) :
    categoryResult bank a1 c = categoryResult bank a2 c := by
  have hmap : ∀ q ∈ catQuestions bank c,
      answerContribution a1 q.id = answerContribution a2 q.id := by
    intro q hq
    rw [catQuestions, List.mem_filter] at hq
    simp only [answerContribution, h q hq.1 (of_decide_eq_true hq.2)]
  have hscore : categoryScore bank a1 c = categoryScore bank a2 c := by
    rw [categoryScore_eq_sum, categoryScore_eq_sum, List.map_congr_left hmap]
  simp [categoryResult, hscore]

/-- Witness for C8: two maps agreeing on the skin questions (ids 1-5) but not
on the rest give the skin category identical results. -/
theorem category_level_independent_witness :
    categoryResult QUESTIONS (fun qid => if qid ≤ 5 then some 3 else some 1)
        Category.skin =
      categoryResult QUESTIONS (fun qid => if qid ≤ 5 then some 3 else some 0)
        Category.skin :=
  category_level_independent QUESTIONS
    (fun qid => if qid ≤ 5 then some 3 else some 1)
    (fun qid => if qid ≤ 5 then some 3 else some 0)
    Category.skin (by decide)

end SelfStyle
